import Mathlib

/-!
Verification development for the `llm-decision-flow` repository.

The definitions below are a shallow embedding of the decision-orchestration
core of the repository (`src/orchestrator/decision_orchestrator.py`, together
with the pieces of `src/rag/evidence_retriever.py` and
`src/agents/policy_agent.py` that the verified properties touch).

Modelling conventions:
- Python floats are modelled as rationals (`ℚ`); all the decision logic only
  compares, maxes and divides confidences, which the rational model captures
  exactly.
- LLM/search/database collaborators (agents, the vector store, external
  search, the LLM-based snippet classifier) are modelled as components of an
  explicit environment record `Env`; the orchestrator code is translated
  verbatim against that environment.
- Threshold lookups (`get_threshold_value(name, settings.<default>)`) resolve
  an optional runtime override, falling back to the configured default; the
  orchestrator functions below take the already-resolved values through a
  `Settings` record, whose `default_settings` instance carries the defaults
  from `src/config.py`.
- In-place mutation of the pydantic `Evidence` object is modelled by
  functional record update.
-/

namespace DecisionFlow

/-- Content domain categories (`Domain` in `src/models/schemas.py`). -/
inductive Domain where
  | health
  | civic
  | finance
  | other
deriving DecidableEq, Repr

/-- Risk assessment tiers (`RiskTier`). -/
inductive RiskTier where
  | low
  | medium
  | high
deriving DecidableEq, Repr

/-- Factuality assessment status (`FactualityStatus`). -/
inductive FactualityStatus where
  | likely_true
  | likely_false
  | uncertain
deriving DecidableEq, Repr

/-- Policy violation status (`ViolationStatus`). -/
inductive ViolationStatus where
  | yes
  | no
  | contextual
deriving DecidableEq, Repr

/-- Final decision actions (`DecisionAction`). -/
inductive DecisionAction where
  | allow
  | label_downrank
  | escalate_human
  | human_confirmation
deriving DecidableEq, Repr

/-- Evidence source categories (`SourceType`). -/
inductive SourceType where
  | authoritative
  | high_credibility
  | scientific
  | fact_check
  | internal
  | external
deriving DecidableEq, Repr

/-- The `.value` string of a `SourceType` enum member. -/
def SourceType.value : SourceType → String
  | .authoritative => "authoritative"
  | .high_credibility => "high_credibility"
  | .scientific => "scientific"
  | .fact_check => "fact_check"
  | .internal => "internal"
  | .external => "external"

/-- An extracted factual claim (`Claim`).  The recursive `subclaims` list of
the source schema is omitted: no code modelled in this development ever reads
it (the orchestrator only uses `claim.text`). -/
structure Claim where
  text : String
  domain : Domain
  is_explicit : Bool := true
  confidence : ℚ := 0
  parent_claim : Option String := none
  decomposition_method : Option String := none
deriving DecidableEq, Repr

/-- Risk assessment result (`RiskAssessment`). -/
structure RiskAssessment where
  tier : RiskTier
  reasoning : String
  confidence : ℚ := 0
  potential_harm : String := ""
  estimated_exposure : String := ""
  vulnerable_populations : List String := []
  route_reason : Option String := none
  model_used : Option String := none
deriving DecidableEq, Repr

/-- A single evidence item (`EvidenceItem`).  The `timestamp` field keeps the
raw metadata string; the source parses it into a `datetime`, which no logic
modelled here ever inspects. -/
structure EvidenceItem where
  text : String
  source : String
  source_quality : String
  source_type : Option SourceType := none
  url : Option String := none
  timestamp : Option String := none
  relevance_score : ℚ := 0
deriving DecidableEq, Repr

/-- Evidence retrieval result (`Evidence`). -/
structure Evidence where
  supporting : List EvidenceItem := []
  contradicting : List EvidenceItem := []
  contextual : List EvidenceItem := []
  evidence_confidence : ℚ := 0
  conflicts_present : Bool := false
  evidence_gap : Bool := false
  evidence_gap_reason : Option String := none
deriving DecidableEq, Repr

/-- Factuality assessment for a claim (`FactualityAssessment`).  The
`evidence_map` dictionary of the source schema is omitted: nothing modelled
here reads it. -/
structure FactualityAssessment where
  claim_text : String
  status : FactualityStatus
  confidence : ℚ := 0
  reasoning : String := ""
  evidence_summary : String := ""
  quoted_evidence : List String := []
deriving DecidableEq, Repr

/-- Policy interpretation result (`PolicyInterpretation`). -/
structure PolicyInterpretation where
  violation : ViolationStatus
  violation_type : Option String := none
  policy_confidence : ℚ := 0
  allowed_contexts : List String := []
  reasoning : String := ""
  conflict_detected : Bool := false
  model_used : Option String := none
  route_reason : Option String := none
deriving DecidableEq, Repr

/-- Final decision result (`Decision`). -/
structure Decision where
  action : DecisionAction
  rationale : String
  requires_human_review : Bool := false
  confidence : ℚ := 0
  escalation_reason : Option String := none
deriving DecidableEq, Repr

/-- Per-agent audit record (`AgentExecutionDetail`), with the pydantic field
defaults. -/
structure AgentExecutionDetail where
  agent_name : String
  agent_type : String
  system_prompt : String
  user_prompt : String
  model_name : Option String := none
  model_provider : Option String := none
  prompt_hash : Option String := none
  confidence : Option ℚ := none
  route_reason : Option String := none
  fallback_used : Bool := false
  policy_version : Option String := none
  execution_time_ms : Option ℚ := none
  status : String := "completed"
  error : Option String := none
deriving DecidableEq, Repr

/-- Response bundle returned by `DecisionOrchestrator.analyze`
(`AnalysisResponse`). -/
structure AnalysisResponse where
  decision : Decision
  claims : List Claim
  risk_assessment : RiskAssessment
  evidence : Option Evidence
  factuality_assessments : List FactualityAssessment
  policy_interpretation : Option PolicyInterpretation
  review_request_id : Option Nat
  agent_executions : List AgentExecutionDetail
deriving DecidableEq, Repr

/-- The configuration surface the orchestration core reads (`src/config.py`
plus `get_threshold_value` resolution): each threshold field holds the value
`get_threshold_value(name, settings.<name>)` resolved for the current run. -/
structure Settings where
  claim_confidence_threshold : ℚ
  risk_confidence_threshold : ℚ
  policy_confidence_threshold : ℚ
  novelty_similarity_threshold : ℚ
  evidence_similarity_cutoff : ℚ
  azure_openai_deployment_name : Option String
  evidence_index_version : String

/-- The defaults from `src/config.py` (`Settings` field defaults). -/
def default_settings : Settings where
  claim_confidence_threshold := mkRat 65 100
  risk_confidence_threshold := mkRat 6 10
  policy_confidence_threshold := mkRat 7 10
  novelty_similarity_threshold := mkRat 35 100
  evidence_similarity_cutoff := mkRat 4 10
  azure_openai_deployment_name := none
  evidence_index_version := "v1"

/-- Python truthiness-based `or` on an optional string with a string default
(`a or b` where `a` may be `None` or empty, both falsy). -/
def pyOr : Option String → String → String
  | some s, d => if s = "" then d else s
  | none, d => d

/-- Python truthiness-based `or` chaining two optional strings. -/
def pyOrO : Option String → Option String → Option String
  | some s, b => if s = "" then b else some s
  | none, b => b

/-- Two-decimal rendering of a rational, modelling the Python `:.2f` format
specifier used in the rationale templates (the exact rounding mode of binary
floats is abstracted; no verified property inspects these digits). -/
def fmt2 (q : ℚ) : String :=
  let n : Int := (q * 100 + mkRat 1 2).floor
  let frac := (n % 100).natAbs
  toString (n / 100) ++ "." ++ (if frac < 10 then "0" else "") ++ toString frac

/-- `DecisionOrchestrator._make_decision` (decision_orchestrator.py lines
169-233): the §4.1.1 decision matrix.  The `evidence` parameter is accepted
and unused, exactly as in the source. -/
def make_decision (risk_assessment : RiskAssessment)
    (policy_interpretation : Option PolicyInterpretation)
    (evidence : Option Evidence) : Decision :=
  let risk_tier := risk_assessment.tier
  match policy_interpretation with
  | none =>
    -- Fallback if no policy interpretation
    { action := .escalate_human
      rationale := "Unable to interpret policy - requires human review"
      requires_human_review := true
      confidence := 0
      escalation_reason := some "Policy interpretation unavailable" }
  | some interp =>
    let policy_confidence := interp.policy_confidence
    let ar : DecisionAction × String :=
      match risk_tier with
      | .low =>
        if policy_confidence ≥ mkRat 7 10 then
          (.allow, "Low risk content with high policy confidence (" ++
            fmt2 policy_confidence ++ "). Content does not violate policy.")
        else
          (.label_downrank, "Low risk content but uncertain policy interpretation (" ++
            fmt2 policy_confidence ++ "). Apply label/downrank.")
      | .medium =>
        if policy_confidence ≥ mkRat 6 10 then
          (.label_downrank, "Medium risk content with moderate policy confidence (" ++
            fmt2 policy_confidence ++ "). Apply label/downrank.")
        else
          (.escalate_human, "Medium risk content with low policy confidence (" ++
            fmt2 policy_confidence ++ "). Requires human review.")
      | .high =>
        if policy_confidence < mkRat 6 10 then
          (.escalate_human, "High risk content with low policy confidence (" ++
            fmt2 policy_confidence ++ "). Escalate to human review.")
        else
          (.human_confirmation, "High risk content with high policy confidence (" ++
            fmt2 policy_confidence ++ "). Requires human confirmation before action.")
    let action := ar.1
    let rationale := ar.2
    { action := action
      rationale := rationale
      requires_human_review := action == .escalate_human || action == .human_confirmation
      confidence := policy_confidence
      escalation_reason := if action == .allow then none else some rationale }

/-- `DecisionOrchestrator._requires_human_review` (decision_orchestrator.py
lines 235-287): the §4.1.2 escalation rules.  The early-`return` chain of the
source becomes a chain of conditionals; pydantic-model truthiness (`if
evidence ...`, `policy_interpretation and ...`) is `Option.isSome`. -/
def requires_human_review (s : Settings) (risk_assessment : RiskAssessment)
    (policy_interpretation : Option PolicyInterpretation)
    (evidence : Option Evidence) (decision : Decision)
    (claim_confidence : ℚ) : Bool :=
  let tier_mh := risk_assessment.tier == .medium || risk_assessment.tier == .high
  -- Decision already requires review
  if decision.requires_human_review then true
  -- Conflicting evidence
  else if (match evidence with | some e => e.conflicts_present | none => false) && tier_mh then true
  -- Low confidence gates (only for high-impact content)
  else if tier_mh && decide (claim_confidence < s.claim_confidence_threshold) then true
  else if tier_mh && decide (risk_assessment.confidence < s.risk_confidence_threshold) then true
  -- High risk + low policy confidence
  else if risk_assessment.tier == .high &&
      (match policy_interpretation with
       | some p => decide (p.policy_confidence < s.policy_confidence_threshold)
       | none => false) then true
  -- Cross-policy conflict detected
  else if tier_mh &&
      (match policy_interpretation with
       | some p => p.conflict_detected
       | none => false) then true
  else false

/-- One result dictionary returned by `ExternalSearchClient.search`
(`src/rag/external_search.py`): optional snippet/title/source/url plus the
source-type tag the client infers from the result URL. -/
structure SearchResult where
  snippet : Option String
  title : Option String
  source : Option String
  url : Option String
  source_type : Option SourceType
deriving DecidableEq, Repr

/-- The three one-word answers `_classify_external_evidence` can return
(the source coerces every LLM reply, and every failure, into one of them). -/
inductive ExtClass where
  | supporting
  | contradicting
  | contextual
deriving DecidableEq, Repr

/-- Metadata dictionary attached to a vector-store document
(`VectorStore.search` result `metadata`). -/
structure VSMetadata where
  source : Option String := none
  quality : Option String := none
  source_type : Option String := none
  url : Option String := none
  timestamp : Option String := none
deriving DecidableEq, Repr

/-- One `VectorStore.search` result: document text, metadata, distance. -/
structure VSResult where
  document : String
  metadata : VSMetadata
  distance : Option ℚ
deriving DecidableEq, Repr

/-- The environment of external collaborators the orchestration core calls
into: the five agents (`self.<x>_agent.process`), the vector store
(`get_all_documents`, `max_similarity`, `search` — already restricted to the
active `evidence_index_version`, as the source passes that filter on every
query), the external search client, the LLM snippet classifier, and the
source-type weighting table (`get_weightings_with_overrides().get(key, 1.0)`
as a total function). -/
structure Env where
  claim_process : String → List Claim × AgentExecutionDetail
  risk_process : String → List Claim → RiskAssessment × AgentExecutionDetail
  evidence_process : List Claim → Evidence × AgentExecutionDetail
  factuality_process : List Claim → Evidence → List FactualityAssessment × AgentExecutionDetail
  policy_process : List Claim → List FactualityAssessment → RiskAssessment →
    PolicyInterpretation × AgentExecutionDetail
  all_docs : List String
  max_sim : String → Option ℚ
  search : String → List SearchResult
  classify : String → String → ExtClass
  vs_search : String → List VSResult
  weights : String → ℚ

/-- `DecisionOrchestrator._max_claim_similarity` (lines 289-314): max over
claims of the vector store's max-similarity score, with empty claim list,
empty store, or no matches all yielding 0.0. -/
def max_claim_similarity (env : Env) (claims : List Claim) : ℚ :=
  if claims.isEmpty then 0
  else if env.all_docs.isEmpty then 0
  else claims.foldl (fun max_similarity claim =>
    match env.max_sim claim.text with
    | some score => max max_similarity score
    | none => max_similarity) 0

/-- The intermediate dictionary `_attach_external_context` builds for each
external search result before classification. -/
structure ExternalItem where
  text : String
  source : String
  url : Option String
  source_type : Option SourceType
  claim : String
deriving DecidableEq, Repr

/-- The `external_items` list of `_attach_external_context` (lines 366-378):
search results for the first 3 claims, with Python `or`-chained fallbacks for
the snippet text and source. -/
def external_items (env : Env) (claims : List Claim) : List ExternalItem :=
  (claims.take 3).flatMap fun claim =>
    (env.search claim.text).map fun result =>
      { text := pyOr (pyOrO result.snippet result.title) "Context snippet unavailable."
        source := pyOr result.source "external"
        url := result.url
        source_type := result.source_type
        claim := claim.text }

/-- Conversion of a classified external item into an `EvidenceItem`
(lines 390-399): external results get relevance 0.5. -/
def external_evidence_item (item : ExternalItem) : EvidenceItem :=
  { text := item.text
    source := item.source
    source_quality := (match item.source_type with
      | some st => st.value
      | none => "external")
    source_type := item.source_type
    url := item.url
    timestamp := none
    relevance_score := mkRat 1 2 }

/-- The `supporting_items` list of `_attach_external_context`: external items
the classifier labels "supporting". -/
def classified_supporting (env : Env) (claims : List Claim) : List EvidenceItem :=
  ((external_items env claims).filter fun it =>
    env.classify it.claim it.text == .supporting).map external_evidence_item

/-- The `contradicting_items` list of `_attach_external_context`. -/
def classified_contradicting (env : Env) (claims : List Claim) : List EvidenceItem :=
  ((external_items env claims).filter fun it =>
    env.classify it.claim it.text == .contradicting).map external_evidence_item

/-- The `contextual_items` list of `_attach_external_context`. -/
def classified_contextual (env : Env) (claims : List Claim) : List EvidenceItem :=
  ((external_items env claims).filter fun it =>
    env.classify it.claim it.text == .contextual).map external_evidence_item

/-- Membership of an item's source type in the `credible_types` set of
`_attach_external_context` (lines 424-430); `None` is never a member. -/
def is_credible_type : Option SourceType → Bool
  | some .authoritative => true
  | some .high_credibility => true
  | some .scientific => true
  | some .fact_check => true
  | some .internal => true
  | _ => false

/-- The default `Evidence` object `_attach_external_context` builds when it
is handed `None` (lines 356-365). -/
def attach_default_evidence : Evidence :=
  { supporting := []
    contradicting := []
    contextual := []
    evidence_confidence := 0
    conflicts_present := false
    evidence_gap := true
    evidence_gap_reason := some "No internal evidence available." }

/-- `_attach_external_context`, merge-and-confidence block (lines 408-418):
extend the three evidence lists with the classified items, then — only when
supporting or contradicting items were found — recompute the confidence as
the max with `support_ratio × 0.7` and set `conflicts_present` from the
newly classified contradicting items. -/
def attach_confidence_stage (env : Env) (claims : List Claim)
    (evidence : Evidence) : Evidence :=
  let supporting_items := classified_supporting env claims
  let contradicting_items := classified_contradicting env claims
  let contextual_items := classified_contextual env claims
  -- Add classified items to evidence
  let ev1 : Evidence :=
    { evidence with
      supporting := evidence.supporting ++ supporting_items
      contradicting := evidence.contradicting ++ contradicting_items
      contextual := evidence.contextual ++ contextual_items }
  -- Update evidence confidence if we found supporting/contradicting evidence
  if supporting_items.isEmpty && contradicting_items.isEmpty then ev1
  else
    let total_classified := supporting_items.length + contradicting_items.length
    let support_share : ℚ :=
      if total_classified > 0 then (supporting_items.length : ℚ) / (total_classified : ℚ) else 0
    { ev1 with
      evidence_confidence := max ev1.evidence_confidence (support_share * (mkRat 7 10))
      conflicts_present := decide (contradicting_items.length > 0) }

/-- `_attach_external_context`, evidence-gap block (lines 420-437): flag a
gap when the merged supporting and contradicting lists are both empty;
otherwise clear the gap exactly when some merged item has a credible source
type. -/
def attach_gap_stage (ev2 : Evidence) : Evidence :=
  if ev2.supporting.isEmpty && ev2.contradicting.isEmpty then
    { ev2 with
      evidence_gap := true
      evidence_gap_reason :=
        some (pyOr ev2.evidence_gap_reason "No supporting or contradicting internal evidence.") }
  else
    let credible_items := (ev2.supporting ++ ev2.contradicting).filter fun item =>
      is_credible_type item.source_type
    if credible_items.isEmpty then ev2
    else { ev2 with evidence_gap := false, evidence_gap_reason := none }

/-- `DecisionOrchestrator._attach_external_context` (lines 354-460), the
sequential mutation written as stage composition.  The final
`allow_external_enrichment` block only writes the new items back into the
vector store (a best-effort side effect swallowing `ValueError`); it does not
change the returned `Evidence`, so it has no functional content here. -/
def attach_external_context (env : Env) (evidence? : Option Evidence)
    (claims : List Claim) : Evidence :=
  let evidence : Evidence := match evidence? with
    | none => attach_default_evidence
    | some e => e
  attach_gap_stage (attach_confidence_stage env claims evidence)

/-- The synthesized audit record for the skipped Evidence Agent on the fast
path (`analyze` lines 116-123). -/
def skipped_evidence_detail : AgentExecutionDetail :=
  { agent_name := "Evidence Agent"
    agent_type := "evidence"
    system_prompt := ""
    user_prompt := "Skipped due to low risk or low confidence routing decision."
    execution_time_ms := none
    status := "skipped" }

/-- The synthesized audit record for the skipped Factuality Agent on the fast
path (`analyze` lines 124-131). -/
def skipped_factuality_detail : AgentExecutionDetail :=
  { agent_name := "Factuality Agent"
    agent_type := "factuality"
    system_prompt := ""
    user_prompt := "Skipped due to low risk or low confidence routing decision."
    execution_time_ms := none
    status := "skipped" }

/-- Tags for the collaborator invocations `analyze` performs, recorded at the
exact call sites of the source, in order. -/
inductive AgentCall where
  | claimExtract (transcript : String)
  | riskScore (transcript : String) (claims : List Claim)
  | evidenceRetrieve (claims : List Claim)
  | externalEnrich (claims : List Claim)
  | factualityAssess (claims : List Claim) (evidence : Evidence)
  | policyInterpret (claims : List Claim) (facts : List FactualityAssessment)
      (risk : RiskAssessment)
deriving DecidableEq, Repr

/-- `DecisionOrchestrator.analyze` (lines 31-167), paired with the ordered
list of collaborator invocations it performed.  Progress-callback
notifications are pure I/O and are not modelled.  As in the source, the final
`_requires_human_review` value is computed and then dropped:
`AnalysisResponse` has no field for it. -/
def analyze (env : Env) (s : Settings) (transcript : String) :
    AnalysisResponse × List AgentCall :=
  -- Step 1: Extract claims
  let claimR := env.claim_process transcript
  let claims := claimR.1
  let claim_detail := claimR.2
  let claim_confidence := claim_detail.confidence.getD 0
  -- Step 2: Assess risk
  let riskR := env.risk_process transcript claims
  let risk_assessment := riskR.1
  let risk_detail := riskR.2
  -- Step 3: Fast path for low-risk content (skip RAG)
  let risk_confident := decide (risk_assessment.confidence ≥ s.risk_confidence_threshold)
  if (risk_assessment.tier == .medium || risk_assessment.tier == .high) && risk_confident then
    -- Step 3a: Retrieve evidence (only for medium/high risk)
    let evidenceR := env.evidence_process claims
    let evidence0 := evidenceR.1
    let evidence_detail := evidenceR.2
    -- Step 3b: External search for medium/high-risk + high-novelty
    let enriched : Evidence × List AgentCall :=
      if risk_assessment.tier == .medium || risk_assessment.tier == .high then
        let similarity_score := max_claim_similarity env claims
        let has_internal_evidence :=
          evidence0.supporting.length > 0 || evidence0.contradicting.length > 0
        if decide (similarity_score < s.novelty_similarity_threshold) || !has_internal_evidence then
          let e := attach_external_context env (some evidence0) claims
          -- `if evidence:` in the source is pydantic-model truthiness: always true here
          let reason_parts :=
            (if decide (similarity_score < s.novelty_similarity_threshold) then
              ["High novelty (similarity: " ++ fmt2 similarity_score ++ " < " ++
                toString s.novelty_similarity_threshold ++ ")"]
             else []) ++
            (if !has_internal_evidence then ["No internal evidence found"] else [])
          let e := if reason_parts.isEmpty then e
            else
              let joined := String.intercalate ". " reason_parts ++ ". " ++
                e.evidence_gap_reason.getD ""
              { e with evidence_gap_reason := some joined }
          (e, [.externalEnrich claims])
        else (evidence0, [])
      else (evidence0, [])
    let evidence := enriched.1
    -- Step 4: Assess factuality
    let factR := env.factuality_process claims evidence
    let factuality_assessments := factR.1
    let factuality_detail := factR.2
    -- Step 5: Interpret policy
    let polR := env.policy_process claims factuality_assessments risk_assessment
    let policy_interpretation := polR.1
    let policy_detail := polR.2
    -- Step 6: Make decision
    let decision := make_decision risk_assessment (some policy_interpretation) (some evidence)
    let _final_review := requires_human_review s risk_assessment
      (some policy_interpretation) (some evidence) decision claim_confidence
    ({ decision := decision
       claims := claims
       risk_assessment := risk_assessment
       evidence := some evidence
       factuality_assessments := factuality_assessments
       policy_interpretation := some policy_interpretation
       review_request_id := none
       agent_executions :=
         [claim_detail, risk_detail, evidence_detail, factuality_detail, policy_detail] },
     [.claimExtract transcript, .riskScore transcript claims, .evidenceRetrieve claims] ++
       enriched.2 ++
       [.factualityAssess claims evidence,
        .policyInterpret claims factuality_assessments risk_assessment])
  else
    -- Low risk: Skip RAG, but still do policy interpretation with limited info
    let polR := env.policy_process claims [] risk_assessment
    let policy_interpretation := polR.1
    let policy_detail := polR.2
    let decision := make_decision risk_assessment (some policy_interpretation) none
    let _final_review := requires_human_review s risk_assessment
      (some policy_interpretation) none decision claim_confidence
    ({ decision := decision
       claims := claims
       risk_assessment := risk_assessment
       evidence := none
       factuality_assessments := []
       policy_interpretation := some policy_interpretation
       review_request_id := none
       agent_executions :=
         [claim_detail, risk_detail, skipped_evidence_detail, skipped_factuality_detail,
          policy_detail] },
     [.claimExtract transcript, .riskScore transcript claims,
      .policyInterpret claims [] risk_assessment])

/-- The claims the pipeline works with: first projection of the claim agent's
answer on the transcript. -/
def pipelineClaims (env : Env) (transcript : String) : List Claim :=
  (env.claim_process transcript).1

/-- The risk assessment the pipeline works with. -/
def pipelineRisk (env : Env) (transcript : String) : RiskAssessment :=
  (env.risk_process transcript (pipelineClaims env transcript)).1

/-- The full-pipeline routing gate of `analyze` (line 71): medium/high tier
and risk confidence at or above the threshold. -/
def fullPipelineGate (env : Env) (s : Settings) (transcript : String) : Bool :=
  let r := pipelineRisk env transcript
  (r.tier == .medium || r.tier == .high) && decide (r.confidence ≥ s.risk_confidence_threshold)

/-- Whether an invocation record is an Evidence Retriever call. -/
def isEvidenceCall : AgentCall → Bool
  | .evidenceRetrieve _ => true
  | _ => false

/-- Whether an invocation record is a Factuality Assessor call. -/
def isFactualityCall : AgentCall → Bool
  | .factualityAssess _ _ => true
  | _ => false

/-- Whether an invocation record is an external-search enrichment call. -/
def isExternalEnrichCall : AgentCall → Bool
  | .externalEnrich _ => true
  | _ => false

/-- `EvidenceRetriever._infer_source_type` (`evidence_retriever.py` lines
108-123).  The `text` parameter is accepted and unused, as in the source;
Python string truthiness (`if source:`) treats the empty string as falsy. -/
def infer_source_type (metadata : VSMetadata) (text : String)
    (source : Option String) : Option SourceType :=
  let raw_type := (pyOr (pyOrO metadata.source_type metadata.quality) "").toLower
  if raw_type = "authoritative" ∨ raw_type = "official" then some .authoritative
  else if raw_type = "scientific" ∨ raw_type = "peer_reviewed" ∨
      raw_type = "peer-reviewed" ∨ raw_type = "preprint" then some .scientific
  else if raw_type = "fact_check" ∨ raw_type = "fact-check" then some .fact_check
  else if raw_type = "journalism" ∨ raw_type = "news" ∨
      raw_type = "high_credibility" then some .high_credibility
  else if raw_type = "internal" then some .internal
  else if (match source with | some src => src != "" | none => false) then some .internal
  else none

/-- `EvidenceRetriever.retrieve_evidence` (`evidence_retriever.py` lines
22-106): vector search per claim, credibility-weighted cutoff filter, the
distance-0.3 supporting/contradicting split, then the confidence, conflict
and gap aggregates.  The `n_results` and `index_version` arguments of the
underlying search are folded into `env.vs_search`; pydantic's range check on
`relevance_score` is not modelled (no verified property reads the score).
Timestamp parsing keeps the raw string, which nothing modelled reads. -/
def retrieve_acc (env : Env) (s : Settings) (claims : List Claim) :
    List EvidenceItem × List EvidenceItem × Nat :=
  claims.foldl (fun acc claim =>
    (env.vs_search claim.text).foldl (fun acc result =>
      let all_supporting := acc.1
      let all_contradicting := acc.2.1
      let credible_items := acc.2.2
      let relevance_score : ℚ := 1 - (result.distance.getD 0)
      let cutoff := s.evidence_similarity_cutoff
      let metadata := result.metadata
      let source_type := infer_source_type metadata result.document metadata.source
      let weight_key := match source_type with
        | some st => st.value
        | none => "external"
      let weight_multiplier := env.weights weight_key
      let weighted_score := min (relevance_score * weight_multiplier) 1
      if weighted_score < cutoff then acc
      else
        let evidence_item : EvidenceItem :=
          { text := result.document
            source := metadata.source.getD "unknown"
            source_quality := metadata.quality.getD "unknown"
            source_type := source_type
            url := metadata.url
            timestamp := metadata.timestamp
            relevance_score := weighted_score }
        let credible_items :=
          if source_type.isSome && source_type != some .external then credible_items + 1
          else credible_items
        -- Simple heuristic of the source: low distance counts as supporting
        if (match result.distance with | some d => decide (d < mkRat 3 10) | none => false) then
          (all_supporting ++ [evidence_item], all_contradicting, credible_items)
        else
          (all_supporting, all_contradicting ++ [evidence_item], credible_items))
      acc)
    (([] : List EvidenceItem), ([] : List EvidenceItem), (0 : Nat))

/-- `EvidenceRetriever.retrieve_evidence`, continued: the aggregate
confidence, conflict and gap computation over the accumulated lists. -/
def retrieve_evidence (env : Env) (s : Settings) (claims : List Claim) : Evidence :=
  let acc := retrieve_acc env s claims
  let all_supporting := acc.1
  let all_contradicting := acc.2.1
  let credible_items := acc.2.2
  let total_items := all_supporting.length + all_contradicting.length
  let evidence_confidence : ℚ :=
    if total_items = 0 then 0
    else
      let support_share : ℚ :=
        if total_items > 0 then (all_supporting.length : ℚ) / (total_items : ℚ) else 0
      support_share * (mkRat 8 10)
  let conflicts_present := decide (all_contradicting.length > 0)
  let evidence_gap := total_items = 0 ∨ credible_items = 0
  let evidence_gap_reason : Option String :=
    if total_items = 0 then some "No matching internal evidence found."
    else if credible_items = 0 then some "No evidence met the credibility threshold."
    else none
  { supporting := all_supporting.take 10
    contradicting := all_contradicting.take 10
    contextual := []
    evidence_confidence := evidence_confidence
    conflicts_present := conflicts_present
    evidence_gap := evidence_gap
    evidence_gap_reason := evidence_gap_reason }

/-- Python `in` on strings: whether `pat` occurs as a substring of `s`
(positive-length patterns only, which is all the source uses). -/
def strContains (s pat : String) : Bool := (s.splitOn pat).length ≥ 2

/-- `PolicyAgent._map_label_to_violation` (`policy_agent.py` lines 187-198);
`if not label` treats both `None` and the empty string as missing. -/
def map_label_to_violation (label : Option String) : Option ViolationStatus :=
  match label with
  | none => none
  | some l =>
    if l = "" then none
    else
      let normalized := l.trim.toLower
      if strContains normalized "context" then some .contextual
      else if strContains normalized "yes" || strContains normalized "violate" then some .yes
      else if strContains normalized "no" then some .no
      else none

/-- `PolicyAgent._detect_conflict` (`policy_agent.py` lines 200-204). -/
def detect_conflict (result : PolicyInterpretation) : Bool :=
  result.violation == .yes && !result.allowed_contexts.isEmpty

/-- The labeling answer of the Zentropi SLM client (`ZentropiClient.label`):
label text, confidence, and the optional `raw["reasoning"]` field. -/
structure SlmLabelResponse where
  label : Option String
  confidence : ℚ
  raw_reasoning : Option String
deriving DecidableEq, Repr

/-- The routing core of `PolicyAgent.process` (`policy_agent.py` lines
119-165): build the SLM result when the client is configured, answered (a
`none` response models the exception path) and its label maps; fall back to
the frontier model when the SLM result is absent or below the policy
confidence threshold; then unconditionally recompute `conflict_detected`.
`fallback_response` is the structured frontier-model output, which already
carries arbitrary field values. -/
def policy_agent_process (s : Settings) (configured : Bool)
    (slm_response : Option SlmLabelResponse)
    (fallback_response : PolicyInterpretation) : PolicyInterpretation :=
  let slm_result : Option PolicyInterpretation :=
    if configured then
      match slm_response with
      | some resp =>
        match map_label_to_violation resp.label with
        | some violation =>
          some { violation := violation
                 violation_type := none
                 policy_confidence := resp.confidence
                 allowed_contexts := []
                 reasoning := pyOr resp.raw_reasoning "SLM policy label output."
                 conflict_detected := false
                 model_used := some "zentropi"
                 route_reason := some "slm_primary" }
        | none => none
      | none => none
    else none
  let response : PolicyInterpretation :=
    match slm_result with
    | some r =>
      if r.policy_confidence < s.policy_confidence_threshold then
        { fallback_response with
          route_reason := some "fallback_frontier"
          model_used := s.azure_openai_deployment_name }
      else r
    | none =>
      { fallback_response with
        route_reason := some "fallback_frontier"
        model_used := s.azure_openai_deployment_name }
  { response with conflict_detected := detect_conflict response }

/-- A minimal audit record for concrete environments in witnesses. -/
def mkDetail (ty : String) : AgentExecutionDetail :=
  { agent_name := ty, agent_type := ty, system_prompt := "", user_prompt := "" }

/-- A base concrete environment (low-risk, empty store) that witness
environments specialize. -/
def baseEnv : Env :=
  { claim_process := fun _ => ([], mkDetail "claim")
    risk_process := fun _ _ => ({ tier := .low, reasoning := "", confidence := mkRat 9 10 }, mkDetail "risk")
    evidence_process := fun _ => ({}, mkDetail "evidence")
    factuality_process := fun _ _ => ([], mkDetail "factuality")
    policy_process := fun _ _ _ =>
      ({ violation := .no, policy_confidence := mkRat 8 10, reasoning := "" }, mkDetail "policy")
    all_docs := []
    max_sim := fun _ => none
    search := fun _ => []
    classify := fun _ _ => .contextual
    vs_search := fun _ => []
    weights := fun _ => 1 }

/-- Concrete risk assessment used to instantiate the C1 theorem. -/
def c1Risk : RiskAssessment :=
  { tier := .medium, reasoning := "medium risk", confidence := mkRat 8 10,
    potential_harm := "harm", estimated_exposure := "wide" }

/-- Concrete policy interpretation used to instantiate the C1 theorem. -/
def c1Interp : PolicyInterpretation :=
  { violation := .yes, policy_confidence := mkRat 65 100, reasoning := "clear clause" }

/-- C1: with a `PolicyInterpretation` present, `_make_decision` follows the
§4.1.1 matrix exactly — Low/≥0.7 gives Allow without review, Low/<0.7 gives
Label-Downrank without review, Medium/≥0.6 gives Label-Downrank without
review, Medium/<0.6 and High/<0.6 give Escalate-to-Human with review,
High/≥0.6 gives Human-Confirmation with review — the decision's confidence
is the policy confidence verbatim, and `escalation_reason` is null exactly
for Allow. -/
theorem decision_matrix_spec (risk : RiskAssessment) (interp : PolicyInterpretation)
    (evidence? : Option Evidence) :
    (make_decision risk (some interp) evidence?).action =
      (match risk.tier with
       | .low => if interp.policy_confidence ≥ mkRat 7 10 then .allow else .label_downrank
       | .medium => if interp.policy_confidence ≥ mkRat 6 10 then .label_downrank else .escalate_human
       | .high => if interp.policy_confidence < mkRat 6 10 then .escalate_human else .human_confirmation)
    ∧ (make_decision risk (some interp) evidence?).requires_human_review =
      (match risk.tier with
       | .low => false
       | .medium => if interp.policy_confidence ≥ mkRat 6 10 then false else true
       | .high => true)
    ∧ (make_decision risk (some interp) evidence?).confidence = interp.policy_confidence
    ∧ ((make_decision risk (some interp) evidence?).escalation_reason = none ↔
        (make_decision risk (some interp) evidence?).action = .allow) := by
  cases h : risk.tier
  case low =>
    by_cases h1 : interp.policy_confidence ≥ mkRat 7 10 <;> simp [make_decision, h, h1]
  case medium =>
    by_cases h1 : interp.policy_confidence ≥ mkRat 6 10 <;> simp [make_decision, h, h1]
  case high =>
    by_cases h1 : interp.policy_confidence < mkRat 6 10 <;> simp [make_decision, h, h1]

/-- Witness for C1 at a concrete medium-tier input with policy confidence
0.65. -/
theorem decision_matrix_spec_witness :
    (make_decision c1Risk (some c1Interp) none).action =
      (match c1Risk.tier with
       | .low => if c1Interp.policy_confidence ≥ mkRat 7 10 then .allow else .label_downrank
       | .medium =>
         if c1Interp.policy_confidence ≥ mkRat 6 10 then .label_downrank else .escalate_human
       | .high =>
         if c1Interp.policy_confidence < mkRat 6 10 then .escalate_human else .human_confirmation)
    ∧ (make_decision c1Risk (some c1Interp) none).requires_human_review =
      (match c1Risk.tier with
       | .low => false
       | .medium => if c1Interp.policy_confidence ≥ mkRat 6 10 then false else true
       | .high => true)
    ∧ (make_decision c1Risk (some c1Interp) none).confidence = c1Interp.policy_confidence
    ∧ ((make_decision c1Risk (some c1Interp) none).escalation_reason = none ↔
        (make_decision c1Risk (some c1Interp) none).action = .allow) :=
  decision_matrix_spec c1Risk c1Interp none

/-- C3: `_requires_human_review` returns true exactly when one of the six
§4.1.2 escalation conditions holds: the matrix decision already requires
review; conflicting evidence on a Medium/High tier; Medium/High tier with
claim confidence below `claim_confidence_threshold`; Medium/High tier with
risk confidence below `risk_confidence_threshold`; High tier with a present
policy interpretation below `policy_confidence_threshold`; or Medium/High
tier with a present policy interpretation whose `conflict_detected` is set. -/
theorem human_review_iff (s : Settings) (risk : RiskAssessment)
    (interp? : Option PolicyInterpretation) (evidence? : Option Evidence)
    (decision : Decision) (claim_confidence : ℚ) :
    requires_human_review s risk interp? evidence? decision claim_confidence = true ↔
      (decision.requires_human_review = true
       ∨ ((∃ e, evidence? = some e ∧ e.conflicts_present = true) ∧
           (risk.tier = .medium ∨ risk.tier = .high))
       ∨ ((risk.tier = .medium ∨ risk.tier = .high) ∧
           claim_confidence < s.claim_confidence_threshold)
       ∨ ((risk.tier = .medium ∨ risk.tier = .high) ∧
           risk.confidence < s.risk_confidence_threshold)
       ∨ (risk.tier = .high ∧ ∃ p, interp? = some p ∧
           p.policy_confidence < s.policy_confidence_threshold)
       ∨ ((risk.tier = .medium ∨ risk.tier = .high) ∧ ∃ p, interp? = some p ∧
           p.conflict_detected = true)) := by
  rcases evidence? with _ | e <;> rcases interp? with _ | p <;>
    simp only [requires_human_review] <;>
    split_ifs <;>
    simp_all [not_or, not_lt]

/-- C4: the escalation pass is monotonic — `_requires_human_review` is at
least the matrix decision's own `requires_human_review` flag, for every
combination of inputs; escalation can only add human review. -/
theorem escalation_monotone (s : Settings) (risk : RiskAssessment)
    (interp? : Option PolicyInterpretation) (evidence? : Option Evidence)
    (decision : Decision) (claim_confidence : ℚ) :
    decision.requires_human_review ≤
      requires_human_review s risk interp? evidence? decision claim_confidence := by
  cases h : decision.requires_human_review <;>
    simp [requires_human_review, h]

/-- C5: when the policy interpretation is absent, `_make_decision` totally
(without raising) returns Escalate-to-Human with confidence 0, mandatory
human review, and escalation reason "Policy interpretation unavailable",
for every risk assessment. -/
theorem missing_policy_short_circuit (risk : RiskAssessment) (evidence? : Option Evidence) :
    make_decision risk none evidence? =
      { action := .escalate_human
        rationale := "Unable to interpret policy - requires human review"
        requires_human_review := true
        confidence := 0
        escalation_reason := some "Policy interpretation unavailable" } := rfl

/-- C10: whichever route produced the policy interpretation (SLM primary or
frontier fallback), `PolicyAgent.process` returns it with `conflict_detected`
recomputed as `violation = Yes ∧ allowed_contexts ≠ []`; any value the model
reported is overwritten. -/
theorem policy_conflict_recompute (s : Settings) (configured : Bool)
    (slm_response : Option SlmLabelResponse)
    (fallback_response : PolicyInterpretation) :
    (policy_agent_process s configured slm_response fallback_response).conflict_detected =
      ((policy_agent_process s configured slm_response fallback_response).violation == .yes &&
       !(policy_agent_process s configured slm_response fallback_response).allowed_contexts.isEmpty) :=
  rfl

/-- C2: the Evidence Retriever and the Factuality Assessor are invoked
exactly when the risk tier is Medium or High and the risk confidence is at
least `risk_confidence_threshold`; in every other case neither is invoked
and the Policy Interpreter runs with an empty factuality list. -/
theorem rag_gate_spec (env : Env) (s : Settings) (t : String) :
    ((analyze env s t).2.any isEvidenceCall = fullPipelineGate env s t)
    ∧ ((analyze env s t).2.any isFactualityCall = fullPipelineGate env s t)
    ∧ (fullPipelineGate env s t = false →
        (analyze env s t).2 =
          [.claimExtract t, .riskScore t (pipelineClaims env t),
           .policyInterpret (pipelineClaims env t) [] (pipelineRisk env t)]) := by
  have hcond : (((env.risk_process t (env.claim_process t).1).1.tier == RiskTier.medium ||
      (env.risk_process t (env.claim_process t).1).1.tier == RiskTier.high) &&
      decide ((env.risk_process t (env.claim_process t).1).1.confidence ≥
        s.risk_confidence_threshold)) = fullPipelineGate env s t := rfl
  cases hfg : fullPipelineGate env s t
  case false =>
    simp only [analyze, hcond, hfg]
    simp [isEvidenceCall, isFactualityCall, pipelineClaims, pipelineRisk]
  case true =>
    simp only [analyze, hcond, hfg]
    refine ⟨?_, ?_, by simp⟩ <;>
      · simp only [if_true, Bool.true_eq_false, List.any_append]
        split <;> simp [isEvidenceCall, isFactualityCall]

/-- The environment instantiating C2's witness: a high-tier, high-confidence
risk result, so the full pipeline runs. -/
def c2Env : Env :=
  { baseEnv with risk_process := fun _ _ =>
      ({ tier := .high, reasoning := "", confidence := mkRat 7 10 }, mkDetail "risk") }

/-- Witness for C2 at a concrete full-pipeline environment. -/
theorem rag_gate_spec_witness :
    ((analyze c2Env default_settings "post").2.any isEvidenceCall =
      fullPipelineGate c2Env default_settings "post")
    ∧ ((analyze c2Env default_settings "post").2.any isFactualityCall =
        fullPipelineGate c2Env default_settings "post")
    ∧ (fullPipelineGate c2Env default_settings "post" = false →
        (analyze c2Env default_settings "post").2 =
          [.claimExtract "post",
           .riskScore "post" (pipelineClaims c2Env "post"),
           .policyInterpret (pipelineClaims c2Env "post") []
             (pipelineRisk c2Env "post")]) :=
  rag_gate_spec c2Env default_settings "post"

/-- C9 (amended): every run returns exactly 5 audit records, in invocation
order claim, risk, evidence, factuality, policy, on both the full-pipeline
and fast paths; on a fast path the evidence and factuality slots hold the
synthesized skip records, whose status is "skipped" and whose explanatory
reason names low risk or low confidence as possible causes — the same text
for both causes (see the counterexample for the original claim's
"distinguishing" requirement). -/
theorem audit_trail_spec (env : Env) (s : Settings) (t : String)
    (hc : ((env.claim_process t).2).agent_type = "claim")
    (hr : ((env.risk_process t (pipelineClaims env t)).2).agent_type = "risk")
    (he : ((env.evidence_process (pipelineClaims env t)).2).agent_type = "evidence")
    (hf : ∀ ev, ((env.factuality_process (pipelineClaims env t) ev).2).agent_type = "factuality")
    (hp : ∀ facts,
      ((env.policy_process (pipelineClaims env t) facts (pipelineRisk env t)).2).agent_type =
        "policy") :
    ((analyze env s t).1.agent_executions.length = 5)
    ∧ ((analyze env s t).1.agent_executions.map AgentExecutionDetail.agent_type =
        ["claim", "risk", "evidence", "factuality", "policy"])
    ∧ (fullPipelineGate env s t = false →
        ((analyze env s t).1.agent_executions[2]? = some skipped_evidence_detail ∧
         (analyze env s t).1.agent_executions[3]? = some skipped_factuality_detail))
    ∧ skipped_evidence_detail.status = "skipped"
    ∧ skipped_factuality_detail.status = "skipped"
    ∧ skipped_evidence_detail.user_prompt =
        "Skipped due to low risk or low confidence routing decision."
    ∧ skipped_factuality_detail.user_prompt =
        "Skipped due to low risk or low confidence routing decision." := by
  have hcond : (((env.risk_process t (env.claim_process t).1).1.tier == RiskTier.medium ||
      (env.risk_process t (env.claim_process t).1).1.tier == RiskTier.high) &&
      decide ((env.risk_process t (env.claim_process t).1).1.confidence ≥
        s.risk_confidence_threshold)) = fullPipelineGate env s t := rfl
  cases hfg : fullPipelineGate env s t
  case false =>
    simp only [analyze, hcond, hfg]
    simp_all [skipped_evidence_detail, skipped_factuality_detail,
      pipelineClaims, pipelineRisk]
  case true =>
    simp only [analyze, hcond, hfg]
    simp_all [skipped_evidence_detail, skipped_factuality_detail,
      pipelineClaims, pipelineRisk]

/-- The environment instantiating C9's witness (fast path via low tier). -/
def c9Env : Env := baseEnv

/-- Witness for C9 at a concrete fast-path environment. -/
theorem audit_trail_spec_witness :
    ((analyze c9Env default_settings "post").1.agent_executions.length = 5)
    ∧ ((analyze c9Env default_settings "post").1.agent_executions.map
        AgentExecutionDetail.agent_type =
        ["claim", "risk", "evidence", "factuality", "policy"])
    ∧ (fullPipelineGate c9Env default_settings "post" = false →
        ((analyze c9Env default_settings "post").1.agent_executions[2]? =
            some skipped_evidence_detail ∧
         (analyze c9Env default_settings "post").1.agent_executions[3]? =
            some skipped_factuality_detail))
    ∧ skipped_evidence_detail.status = "skipped"
    ∧ skipped_factuality_detail.status = "skipped"
    ∧ skipped_evidence_detail.user_prompt =
        "Skipped due to low risk or low confidence routing decision."
    ∧ skipped_factuality_detail.user_prompt =
        "Skipped due to low risk or low confidence routing decision." :=
  audit_trail_spec c9Env default_settings "post" rfl rfl rfl
    (fun _ => rfl) (fun _ => rfl)

/-- A fast-path environment whose skip cause is low risk (Low tier, high
risk confidence). -/
def c9EnvLowRisk : Env := baseEnv

/-- A fast-path environment whose skip cause is low confidence (High tier,
risk confidence 0.1 below the 0.6 threshold). -/
def c9EnvLowConf : Env :=
  { baseEnv with risk_process := fun _ _ =>
      ({ tier := .high, reasoning := "", confidence := mkRat 1 10 }, mkDetail "risk") }

/-- Counterexample to C9 as stated: a run skipped because of low risk and a
run skipped because of a low-confidence High-tier assessment produce
identical evidence and factuality audit records — the skip reason does not
distinguish the two causes. -/
theorem skip_reason_not_distinguishing :
    (pipelineRisk c9EnvLowRisk "post").tier = .low
    ∧ (pipelineRisk c9EnvLowRisk "post").confidence ≥
        default_settings.risk_confidence_threshold
    ∧ (pipelineRisk c9EnvLowConf "post").tier = .high
    ∧ ¬((pipelineRisk c9EnvLowConf "post").confidence ≥
        default_settings.risk_confidence_threshold)
    ∧ (analyze c9EnvLowRisk default_settings "post").1.agent_executions[2]? =
        (analyze c9EnvLowConf default_settings "post").1.agent_executions[2]?
    ∧ (analyze c9EnvLowRisk default_settings "post").1.agent_executions[3]? =
        (analyze c9EnvLowConf default_settings "post").1.agent_executions[3]?
    ∧ (analyze c9EnvLowRisk default_settings "post").1.agent_executions[2]? =
        some skipped_evidence_detail := by
  refine ⟨rfl, by decide, rfl, by decide, rfl, rfl, rfl⟩

/-- Helper: the similarity fold of `_max_claim_similarity` keeps its
accumulator when no claim has a score. -/
lemma foldl_max_sim_of_none (env : Env) (l : List Claim) (acc : ℚ)
    (h : ∀ c ∈ l, env.max_sim c.text = none) :
    l.foldl (fun max_similarity claim =>
      match env.max_sim claim.text with
      | some score => max max_similarity score
      | none => max_similarity) acc = acc := by
  induction l generalizing acc with
  | nil => rfl
  | cons hd tl ih =>
    simp only [List.foldl_cons, h hd (List.mem_cons_self hd tl)]
    exact ih acc fun c hc => h c (List.mem_cons_of_mem hd hc)

/-- Helper: the evidence-gap block never changes `evidence_confidence`. -/
lemma attach_gap_stage_confidence (e : Evidence) :
    (attach_gap_stage e).evidence_confidence = e.evidence_confidence := by
  unfold attach_gap_stage
  split
  · rfl
  · dsimp only
    split <;> rfl

/-- Helper: the evidence-gap block never changes `conflicts_present`. -/
lemma attach_gap_stage_conflicts (e : Evidence) :
    (attach_gap_stage e).conflicts_present = e.conflicts_present := by
  unfold attach_gap_stage
  split
  · rfl
  · dsimp only
    split <;> rfl

/-- Helper: the evidence-gap block never changes `contradicting`. -/
lemma attach_gap_stage_contradicting (e : Evidence) :
    (attach_gap_stage e).contradicting = e.contradicting := by
  unfold attach_gap_stage
  split
  · rfl
  · dsimp only
    split <;> rfl

/-- C6: on the full-pipeline path, external-search enrichment runs exactly
when the max claim-to-internal-evidence similarity is below
`novelty_similarity_threshold` or the retrieved evidence has neither
supporting nor contradicting items; and the similarity computation yields
0.0 (maximal novelty) for an empty claim list, an empty document store, or
when no claim matches anything. -/
theorem novelty_gate_spec (env : Env) (s : Settings) (t : String) :
    ((analyze env s t).2.any isExternalEnrichCall =
      (fullPipelineGate env s t &&
        (decide (max_claim_similarity env (pipelineClaims env t) <
            s.novelty_similarity_threshold) ||
          !(decide ((env.evidence_process (pipelineClaims env t)).1.supporting.length > 0) ||
            decide ((env.evidence_process (pipelineClaims env t)).1.contradicting.length > 0)))))
    ∧ (pipelineClaims env t = [] → max_claim_similarity env (pipelineClaims env t) = 0)
    ∧ (env.all_docs = [] → max_claim_similarity env (pipelineClaims env t) = 0)
    ∧ ((∀ c ∈ pipelineClaims env t, env.max_sim c.text = none) →
        max_claim_similarity env (pipelineClaims env t) = 0) := by
  have hcond : (((env.risk_process t (env.claim_process t).1).1.tier == RiskTier.medium ||
      (env.risk_process t (env.claim_process t).1).1.tier == RiskTier.high) &&
      decide ((env.risk_process t (env.claim_process t).1).1.confidence ≥
        s.risk_confidence_threshold)) = fullPipelineGate env s t := rfl
  refine ⟨?_, ?_, ?_, ?_⟩
  · cases hfg : fullPipelineGate env s t
    case false =>
      simp only [analyze, hcond, hfg]
      simp [isExternalEnrichCall]
    case true =>
      have h2 := hcond.trans hfg
      rw [Bool.and_eq_true] at h2
      by_cases hsim : max_claim_similarity env (env.claim_process t).1 <
          s.novelty_similarity_threshold <;>
      by_cases hsup :
          (env.evidence_process (env.claim_process t).1).1.supporting.length > 0 <;>
      by_cases hcon :
          (env.evidence_process (env.claim_process t).1).1.contradicting.length > 0
      all_goals
        simp only [analyze]
        rw [hcond, hfg]
        simp [h2.1, hsim, hsup, hcon, isExternalEnrichCall, pipelineClaims]
  · intro h
    simp [max_claim_similarity, h]
  · intro h
    simp [max_claim_similarity, h]
  · intro h
    by_cases hc : (pipelineClaims env t).isEmpty
    · simp [max_claim_similarity, hc]
    · by_cases hd : env.all_docs.isEmpty <;>
        simp [max_claim_similarity, hc, hd, foldl_max_sim_of_none env _ 0 h]

/-- Witness for C6 at a concrete fast-path environment with an empty store. -/
theorem novelty_gate_spec_witness :
    ((analyze baseEnv default_settings "post").2.any isExternalEnrichCall =
      (fullPipelineGate baseEnv default_settings "post" &&
        (decide (max_claim_similarity baseEnv (pipelineClaims baseEnv "post") <
            default_settings.novelty_similarity_threshold) ||
          !(decide ((baseEnv.evidence_process
              (pipelineClaims baseEnv "post")).1.supporting.length > 0) ||
            decide ((baseEnv.evidence_process
              (pipelineClaims baseEnv "post")).1.contradicting.length > 0)))))
    ∧ (pipelineClaims baseEnv "post" = [] →
        max_claim_similarity baseEnv (pipelineClaims baseEnv "post") = 0)
    ∧ (baseEnv.all_docs = [] →
        max_claim_similarity baseEnv (pipelineClaims baseEnv "post") = 0)
    ∧ ((∀ c ∈ pipelineClaims baseEnv "post", baseEnv.max_sim c.text = none) →
        max_claim_similarity baseEnv (pipelineClaims baseEnv "post") = 0) :=
  novelty_gate_spec baseEnv default_settings "post"

/-- C7: external enrichment never lowers `evidence_confidence`, and when the
newly classified items include supporting or contradicting evidence the new
confidence is exactly the max of the prior confidence and
`support_ratio × 0.7`, with `support_ratio` the fraction of supporting items
among the newly classified supporting and contradicting ones. -/
theorem enrichment_confidence_monotone (env : Env) (ev : Evidence) (claims : List Claim) :
    ev.evidence_confidence ≤ (attach_external_context env (some ev) claims).evidence_confidence
    ∧ (¬(classified_supporting env claims = [] ∧ classified_contradicting env claims = []) →
        (attach_external_context env (some ev) claims).evidence_confidence =
          max ev.evidence_confidence
            (((classified_supporting env claims).length : ℚ) /
              (((classified_supporting env claims).length : ℚ) +
                ((classified_contradicting env claims).length : ℚ)) * mkRat 7 10)) := by
  have hgap := attach_gap_stage_confidence (attach_confidence_stage env claims ev)
  have hctx : (attach_external_context env (some ev) claims).evidence_confidence =
      (attach_confidence_stage env claims ev).evidence_confidence := hgap
  by_cases hs : ((classified_supporting env claims).isEmpty &&
      (classified_contradicting env claims).isEmpty) = true
  · have hconf : (attach_confidence_stage env claims ev).evidence_confidence =
        ev.evidence_confidence := by
      simp only [attach_confidence_stage, hs, if_true]
    constructor
    · rw [hctx, hconf]
    · intro hne
      rw [Bool.and_eq_true] at hs
      exact absurd ⟨List.isEmpty_iff.mp hs.1, List.isEmpty_iff.mp hs.2⟩ hne
  · rw [Bool.not_eq_true] at hs
    have htot : 0 < (classified_supporting env claims).length +
        (classified_contradicting env claims).length := by
      rw [Bool.and_eq_false_iff] at hs
      rcases hs with h | h <;> rw [List.isEmpty_eq_false] at h
      · have := List.length_pos.mpr h
        omega
      · have := List.length_pos.mpr h
        omega
    have hconf : (attach_confidence_stage env claims ev).evidence_confidence =
        max ev.evidence_confidence
          (((classified_supporting env claims).length : ℚ) /
            (((classified_supporting env claims).length : ℚ) +
              ((classified_contradicting env claims).length : ℚ)) * mkRat 7 10) := by
      simp only [attach_confidence_stage, hs, Bool.false_eq_true, if_false, htot, if_pos]
      push_cast
      rfl
    constructor
    · rw [hctx, hconf]
      exact le_max_left _ _
    · intro _
      rw [hctx, hconf]

/-- Witness for C7 at a concrete environment and evidence value. -/
theorem enrichment_confidence_monotone_witness :
    ({} : Evidence).evidence_confidence ≤
      (attach_external_context baseEnv (some ({} : Evidence)) []).evidence_confidence
    ∧ (¬(classified_supporting baseEnv [] = [] ∧ classified_contradicting baseEnv [] = []) →
        (attach_external_context baseEnv (some ({} : Evidence)) []).evidence_confidence =
          max ({} : Evidence).evidence_confidence
            (((classified_supporting baseEnv []).length : ℚ) /
              (((classified_supporting baseEnv []).length : ℚ) +
                ((classified_contradicting baseEnv []).length : ℚ)) * mkRat 7 10)) :=
  enrichment_confidence_monotone baseEnv ({} : Evidence) []

/-- The pre-existing contradicting evidence item of the C8 counterexample. -/
def c8Item : EvidenceItem :=
  { text := "prior contradicting item", source := "internal", source_quality := "internal",
    source_type := some .internal, relevance_score := mkRat 1 2 }

/-- A retrieval result with one contradicting item, satisfying the conflicts
invariant, to be enriched in the C8 counterexample. -/
def c8Evidence : Evidence :=
  { supporting := [], contradicting := [c8Item], contextual := [],
    evidence_confidence := 0, conflicts_present := true, evidence_gap := false,
    evidence_gap_reason := none }

/-- The claim driving external search in the C8 counterexample. -/
def c8Claim : Claim :=
  { text := "novel claim", domain := .health, confidence := mkRat 9 10 }

/-- Environment for the C8 counterexample: external search returns one
snippet and the classifier labels everything supporting. -/
def c8Env : Env :=
  { baseEnv with
    search := fun _ =>
      [{ snippet := some "supportive external snippet", title := none,
         source := some "web", url := none, source_type := some .external }]
    classify := fun _ _ => .supporting }

/-- Counterexample to C8 as stated: enriching an Evidence object that holds
a contradicting item with external results that classify as supporting only
sets `conflicts_present` to false while `contradicting` stays non-empty —
the invariant is broken and the flag flips from true to false. -/
theorem conflicts_invariant_flip :
    c8Evidence.conflicts_present = true
    ∧ c8Evidence.contradicting ≠ []
    ∧ (attach_external_context c8Env (some c8Evidence) [c8Claim]).conflicts_present = false
    ∧ (attach_external_context c8Env (some c8Evidence) [c8Claim]).contradicting ≠ [] := by
  refine ⟨rfl, by decide, rfl, by decide⟩

/-- C8 (amended): every Evidence object produced by internal retrieval
satisfies `conflicts_present ↔ contradicting ≠ []`; external enrichment
preserves the invariant except in the flip case — when prior contradicting
items exist and the newly classified items include supporting but no
contradicting ones, `conflicts_present` is set to false although
`contradicting` remains non-empty (see the counterexample). -/
theorem conflicts_invariant_amended (env : Env) (s : Settings) (claims : List Claim)
    (ev : Evidence)
    (hev : ev.conflicts_present = true ↔ ev.contradicting ≠ [])
    (hflip : classified_contradicting env claims ≠ [] ∨ ev.contradicting = [] ∨
      classified_supporting env claims = []) :
    ((retrieve_evidence env s claims).conflicts_present = true ↔
      (retrieve_evidence env s claims).contradicting ≠ [])
    ∧ ((attach_external_context env (some ev) claims).conflicts_present = true ↔
        (attach_external_context env (some ev) claims).contradicting ≠ []) := by
  constructor
  · cases h : (retrieve_acc env s claims).2.1 <;>
      simp [retrieve_evidence, h]
  · have hc := attach_gap_stage_conflicts (attach_confidence_stage env claims ev)
    have hd := attach_gap_stage_contradicting (attach_confidence_stage env claims ev)
    have hx : attach_external_context env (some ev) claims =
        attach_gap_stage (attach_confidence_stage env claims ev) := rfl
    rw [hx, hc, hd]
    by_cases hs : ((classified_supporting env claims).isEmpty &&
        (classified_contradicting env claims).isEmpty) = true
    · have h12 := hs
      rw [Bool.and_eq_true] at h12
      have h2 := List.isEmpty_iff.mp h12.2
      simp only [attach_confidence_stage, hs, if_true]
      simp [h2, hev]
    · rw [Bool.not_eq_true] at hs
      simp only [attach_confidence_stage, hs, Bool.false_eq_true, if_false]
      cases hcon : classified_contradicting env claims with
      | cons hd tl => simp [hcon]
      | nil =>
        rcases hflip with hf | hf | hf
        · exact absurd hcon hf
        · simp [hcon, hf]
        · rw [hf, hcon] at hs
          simp at hs

/-- Witness for the amended C8 at a concrete environment with no external
results and an empty prior evidence object. -/
theorem conflicts_invariant_amended_witness :
    ((retrieve_evidence baseEnv default_settings []).conflicts_present = true ↔
      (retrieve_evidence baseEnv default_settings []).contradicting ≠ [])
    ∧ ((attach_external_context baseEnv (some ({} : Evidence)) []).conflicts_present = true ↔
        (attach_external_context baseEnv (some ({} : Evidence)) []).contradicting ≠ []) :=
  conflicts_invariant_amended baseEnv default_settings [] ({} : Evidence)
    (by decide) (Or.inr (Or.inl rfl))

end DecisionFlow
